import Mathlib

/-!
Shallow embedding of the Cat_Food_Track feeding tracker (FastAPI + SQLAlchemy
application) and verification of its specification claims.

Timestamps (`datetime`) are modelled as a calendar day (an integer ordinal)
together with the microsecond-of-day, compared lexicographically, exactly as
Python `datetime` values of the form `(date, time)` compare.  Database tables
are lists of rows; SQLAlchemy queries become list filters.  Python `or` /
truthiness on optional integers and strings is modelled explicitly
(`pyOrLimit`, `pyTruthy`, `pyTruthyStr`).
-/

namespace CatFeeder

/-- Microseconds in one day (24*60*60*1_000_000). -/
def microPerDay : Nat := 86400000000

/-- Microsecond-of-day of Python `time.max` = 23:59:59.999999. -/
def timeMaxMicro : Nat := 86399999999

/-- A `datetime` value: calendar day (ordinal, may be negative) plus the
microsecond within the day.  Comparison is lexicographic, as for Python
`datetime`. -/
structure DT where
  day : Int
  micro : Nat
deriving Repr, DecidableEq

/-- Python `datetime` `<=` (lexicographic on (day, micro)). -/
def dtLe (a b : DT) : Bool :=
  decide (a.day < b.day) || (decide (a.day = b.day) && decide (a.micro ≤ b.micro))

/-- Python `datetime` `<` (lexicographic on (day, micro)). -/
def dtLt (a b : DT) : Bool :=
  decide (a.day < b.day) || (decide (a.day = b.day) && decide (a.micro < b.micro))

/-- `datetime.combine(d, time.min)` — midnight of day `d`. -/
def dayStart (d : Int) : DT := ⟨d, 0⟩

/-- `datetime.combine(d, time.max)` — 23:59:59.999999 of day `d`.  This is what
`log_feeding` / `device_feed` in `app/main.py` use as `day_end`. -/
def dayEndCode (d : Int) : DT := ⟨d, timeMaxMicro⟩

/-- `config.DAILY_LIMIT` (app/config.py). -/
def DAILY_LIMIT : Int := 3

/-- `config.SACHET_SIZE_GRAMS` (app/config.py). -/
def SACHET_SIZE_GRAMS : Int := 85

/-- `config.LOW_STOCK_THRESHOLD` default (app/config.py). -/
def LOW_STOCK_THRESHOLD : Nat := 5

/-- Row of the `pets` table (app/models.py, class `Pet`); columns irrelevant to
the claims (photo, breed, weight, ...) are omitted. -/
structure Pet where
  id : Nat
  name : String
  diet_type : Option String := none
  daily_limit_count : Option Int := none
  daily_grams_limit : Option Int := none
deriving Repr, DecidableEq

/-- Row of the `feeding_events` table (app/models.py, class `FeedingEvent`). -/
structure FeedingEvent where
  id : Nat
  fed_at : DT
  amount_grams : Int
  diet_type : Option String := none
  pet_id : Option Nat := none
deriving Repr, DecidableEq

/-- An audit-log row (app/models.py, class `AuditLog`): action plus detail. -/
structure AuditEntry where
  action : String
  details : Option String := none
deriving Repr, DecidableEq

/-- The pet/feeding part of the database, plus the autoincrement counter for
feeding-event primary keys. -/
structure Store where
  pets : List Pet
  events : List FeedingEvent
  auditLog : List AuditEntry
  nextEventId : Nat
deriving Repr, DecidableEq

/-- `crud.get_pet`: select the pet with the given primary key. -/
def get_pet (s : Store) (pid : Nat) : Option Pet :=
  s.pets.find? (fun p => p.id == pid)

/-- Optional pet filter of `crud.get_daily_count` (`if pet_id is not None`). -/
def matchesPet (pid : Option Nat) (e : FeedingEvent) : Bool :=
  match pid with
  | none => true
  | some p => e.pet_id == some p

/-- The window condition `fed_at >= day_start AND fed_at < day_end` shared by
`crud.get_daily_count` and `crud.get_daily_total_for_pet`. -/
def inWindow (ds de : DT) (e : FeedingEvent) : Bool :=
  dtLe ds e.fed_at && dtLt e.fed_at de

/-- `crud.get_daily_count`: count of feeding events in `[day_start, day_end)`,
optionally restricted to one pet. -/
def get_daily_count (s : Store) (ds de : DT) (pid : Option Nat) : Nat :=
  (s.events.filter (fun e => inWindow ds de e && matchesPet pid e)).length

/-- `crud.get_daily_total_for_pet`: sum of `amount_grams` over the pet's events
in `[day_start, day_end)` (coalesced to 0 when empty). -/
def get_daily_total_for_pet (s : Store) (ds de : DT) (pid : Nat) : Int :=
  ((s.events.filter (fun e => inWindow ds de e && e.pet_id == some pid)).map
    (fun e => e.amount_grams)).sum

/-- Python `pet.daily_limit_count or DAILY_LIMIT` (app/main.py line 275):
`None` and `0` are falsy, any other integer is taken literally. -/
def pyOrLimit (o : Option Int) : Int :=
  match o with
  | none => DAILY_LIMIT
  | some n => if n = 0 then DAILY_LIMIT else n

/-- Python truthiness of an optional integer (`if pet.daily_grams_limit:`). -/
def pyTruthy (o : Option Int) : Bool :=
  match o with
  | none => false
  | some n => decide (n ≠ 0)

/-- `crud.create_feeding_event`: insert a new feeding-event row with the next
primary key and return it. -/
def create_feeding_event (s : Store) (fed_at : DT) (amount : Int)
    (diet : Option String) (pid : Option Nat) : Store × FeedingEvent :=
  let e : FeedingEvent :=
    { id := s.nextEventId, fed_at := fed_at, amount_grams := amount,
      diet_type := diet, pet_id := pid }
  ({ s with events := s.events ++ [e], nextEventId := s.nextEventId + 1 }, e)

/-- Audit detail string built by `log_feeding` / `device_feed`. -/
def feedDetail (petName : String) (e : FeedingEvent) : String :=
  let base := petName ++ " • " ++ toString e.amount_grams ++ "g"
  match e.diet_type with
  | none => base
  | some d => base ++ " • " ++ d

/-- Rejections of the feeding endpoints, by HTTP detail message. -/
inductive FeedError where
  /-- 400 "Pet is required." -/
  | petRequired
  /-- 404 "Pet not found." -/
  | petNotFound
  /-- 400 "Daily feeding limit reached." -/
  | dailyCountLimit
  /-- 400 "Daily grams limit reached." -/
  | dailyGramsLimit
  /-- 401 "Invalid device token." (device endpoint only) -/
  | deviceTokenInvalid
deriving Repr, DecidableEq

/-- Request body of `POST /feedings` (schemas.FeedingEventCreate).  The schema
enforces `amount_grams >= 1`; `fed_at` is required. -/
structure FeedingPayload where
  fed_at : DT
  amount_grams : Int
  diet_type : Option String := none
  pet_id : Option Nat := none
deriving Repr, DecidableEq

/-- The `POST /feedings` handler `log_feeding` (app/main.py lines 264-297):
pet lookup, daily-count check over `[midnight, time.max)` of `fed_at`'s date,
optional daily-grams check, then insert plus audit entry.  Returns the
resulting store (unchanged on rejection) and the outcome. -/
def log_feeding (s : Store) (payload : FeedingPayload) :
    Store × Except FeedError FeedingEvent :=
  match payload.pet_id with
  | none => (s, .error .petRequired)
  | some pid =>
    match get_pet s pid with
    | none => (s, .error .petNotFound)
    | some pet =>
      let limit_count := pyOrLimit pet.daily_limit_count
      let ds := dayStart payload.fed_at.day
      let de := dayEndCode payload.fed_at.day
      let daily_count : Int := (get_daily_count s ds de (some pid) : Nat)
      if limit_count ≤ daily_count then
        (s, .error .dailyCountLimit)
      else if pyTruthy pet.daily_grams_limit &&
          decide (pet.daily_grams_limit.getD 0 <
            get_daily_total_for_pet s ds de pid + payload.amount_grams) then
        (s, .error .dailyGramsLimit)
      else
        let r := create_feeding_event s payload.fed_at payload.amount_grams
          payload.diet_type (some pid)
        ({ r.1 with auditLog :=
            r.1.auditLog ++ [⟨"feeding_logged", some (feedDetail pet.name r.2)⟩] },
         .ok r.2)

/-- Request body of `POST /device/feed` (schemas.DeviceFeedRequest):
`fed_at` is optional and defaults to `datetime.utcnow()`. -/
structure DevicePayload where
  amount_grams : Int
  fed_at : Option DT := none
  diet_type : Option String := none
  pet_id : Option Nat := none
deriving Repr, DecidableEq

/-- Python truthiness of an optional string (empty string is falsy). -/
def pyTruthyStr (o : Option String) : Bool :=
  match o with
  | none => false
  | some t => decide (t ≠ "")

/-- The `POST /device/feed` handler `device_feed` (app/main.py lines
2195-2233): optional device-token gate, then the same admission logic as
`log_feeding` with `fed_at = payload.fed_at or utcnow()`. -/
def device_feed (s : Store) (now : DT) (requiredToken deviceToken : Option String)
    (payload : DevicePayload) : Store × Except FeedError FeedingEvent :=
  if pyTruthyStr requiredToken && !(deviceToken == requiredToken) then
    (s, .error .deviceTokenInvalid)
  else
    let fed_at := payload.fed_at.getD now
    match payload.pet_id with
    | none => (s, .error .petRequired)
    | some pid =>
      match get_pet s pid with
      | none => (s, .error .petNotFound)
      | some pet =>
        let limit_count := pyOrLimit pet.daily_limit_count
        let ds := dayStart fed_at.day
        let de := dayEndCode fed_at.day
        let daily_count : Int := (get_daily_count s ds de (some pid) : Nat)
        if limit_count ≤ daily_count then
          (s, .error .dailyCountLimit)
        else if pyTruthy pet.daily_grams_limit &&
            decide (pet.daily_grams_limit.getD 0 <
              get_daily_total_for_pet s ds de pid + payload.amount_grams) then
          (s, .error .dailyGramsLimit)
        else
          let r := create_feeding_event s fed_at payload.amount_grams
            payload.diet_type (some pid)
          ({ r.1 with auditLog :=
              r.1.auditLog ++ [⟨"feeding_logged", some (feedDetail pet.name r.2)⟩] },
           .ok r.2)

/-- Rejection of the pet-deletion endpoints: 404 "Pet not found.". -/
inductive DeleteError where
  | petNotFound
deriving Repr, DecidableEq

/-- The `DELETE /pets/(pet_id)` handler `delete_pet` (app/main.py lines
2297-2307): look the pet up, then `crud.delete_pet` which only deletes the pet
row (`db.delete(pet)`); no ORM relationship or FK cascade is configured for
`FeedingEvent.pet_id`, so feeding events are untouched. -/
def delete_pet_endpoint (s : Store) (pid : Nat) : Store × Except DeleteError Unit :=
  match get_pet s pid with
  | none => (s, .error .petNotFound)
  | some _ =>
    ({ s with pets := s.pets.filter (fun p => !(p.id == pid)) }, .ok ())

/-- The `DELETE /admin/pets/(pet_id)` handler `admin_delete_pet` (app/main.py
lines 1825-1842): explicitly deletes the pet's feeding events
(`db.query(FeedingEvent).filter(pet_id == pet_id).delete()`), then the pet row,
then appends an audit entry. -/
def admin_delete_pet_endpoint (s : Store) (pid : Nat) :
    Store × Except DeleteError Unit :=
  match get_pet s pid with
  | none => (s, .error .petNotFound)
  | some pet =>
    let s1 := { s with events := s.events.filter (fun e => !(e.pet_id == some pid)) }
    let s2 := { s1 with pets := s1.pets.filter (fun p => !(p.id == pid)) }
    let detail := "pet_id=" ++ toString pid ++ " name=" ++ pet.name
    ({ s2 with auditLog := s2.auditLog ++ [⟨"admin_delete_pet", some detail⟩] },
     .ok ())

/-- Pet filter of `crud.get_daily_totals` — note `if pet_id:`, Python
truthiness, so a filter value of `0` is ignored (no filtering). -/
def statsPetFilter (pid : Option Nat) (e : FeedingEvent) : Bool :=
  match pid with
  | none => true
  | some p => if p = 0 then true else e.pet_id == some p

/-- Per-day event count produced by `crud.get_daily_totals` for day `d`
(`GROUP BY func.date(fed_at)` over the window `[start, end)`); the handler's
`totals.get(key, default)` yields 0 for a day with no rows, which this function
does as well. -/
def totalsCount (s : Store) (start de : DT) (pid : Option Nat) (d : Int) : Nat :=
  (s.events.filter (fun e =>
    inWindow start de e && statsPetFilter pid e && decide (e.fed_at.day = d))).length

/-- Per-day gram total produced by `crud.get_daily_totals` for day `d`. -/
def totalsGrams (s : Store) (start de : DT) (pid : Option Nat) (d : Int) : Int :=
  ((s.events.filter (fun e =>
    inWindow start de e && statsPetFilter pid e && decide (e.fed_at.day = d))).map
    (fun e => e.amount_grams)).sum

/-- One item of the `GET /stats/daily` response (schemas.DailyStat), with the
date kept as the day ordinal. -/
structure DailyStat where
  date : Int
  count : Nat
  grams : Int
deriving Repr, DecidableEq

/-- Rejection of `GET /stats/daily`: 400 "Start date must be before end date.". -/
inductive StatsError where
  | invalidRange
deriving Repr, DecidableEq

/-- The `GET /stats/daily` handler `get_daily_stats` (app/main.py lines
2037-2066) for a call that supplies both `start` and `end` (the branch the
claim is about): validate `start <= end`, query totals over
`[start 00:00, end+1day 00:00)`, and emit `days = (end-start)+1` items, where
item `offset` has date `today - (days-1-offset)` with `today = end`, looked up
in the totals with a `(count 0, grams 0)` default. -/
def get_daily_stats (s : Store) (startD endD : Int) (pid : Option Nat) :
    Except StatsError (Nat × List DailyStat) :=
  if decide (endD < startD) then .error .invalidRange
  else
    let start_dt := dayStart startD
    let end_dt := dayStart (endD + 1)
    let days : Nat := (endD - startD).toNat + 1
    let items := (List.range days).map (fun off =>
      let d : Int := endD - ((days - 1 - off : Nat) : Int)
      { date := d,
        count := totalsCount s start_dt end_dt pid d,
        grams := totalsGrams s start_dt end_dt pid d })
    .ok (days, items)

/-- Inventory row (the `PetFoodInventory` model is referenced by
`services/inventory.py` but its declaration is not under src; fields follow
spec section 3: `food_name`, non-negative `sachet_count`, fixed sachet size,
derived `remaining_grams`). -/
structure PetFoodInventory where
  pet_id : Nat
  food_name : String
  sachet_count : Nat
deriving Repr, DecidableEq

/-- Spec section 3: `remaining_grams = sachet_count * sachet_size_grams`. -/
def remaining_grams (inv : PetFoodInventory) : Int :=
  (inv.sachet_count : Int) * SACHET_SIZE_GRAMS

/-- Inventory-side state touched by `handle_inventory_after_feeding`: the
inventory rows, the audit log and the push notifications sent. -/
structure InvState where
  inventories : List PetFoodInventory
  auditLog : List AuditEntry
  pushes : List String
deriving Repr, DecidableEq

/-- Modelled from the spec: `crud.get_pet_inventory` is absent from src (only
its caller `services/inventory.py` is present).  Per spec section 3 a pet has
at most one inventory row; this returns it if it exists. -/
def get_pet_inventory (invs : List PetFoodInventory) (pid : Nat) :
    Option PetFoodInventory :=
  invs.find? (fun i => i.pet_id == pid)

/-- Modelled from the spec: `crud.apply_inventory_consumption` is absent from
src.  Spec section 4.2: consumption is gram-for-gram,
`new_remaining = max(0, remaining_grams - amount_grams)` and
`new_sachet_count = new_remaining // sachet_size_grams`; with no inventory row
it is a no-op returning nothing. -/
def apply_inventory_consumption (invs : List PetFoodInventory) (pid : Nat)
    (amount : Int) : List PetFoodInventory × Option PetFoodInventory :=
  match get_pet_inventory invs pid with
  | none => (invs, none)
  | some inv =>
    let newRemaining : Int := max 0 (remaining_grams inv - amount)
    let updated : PetFoodInventory :=
      { inv with sachet_count := (newRemaining / SACHET_SIZE_GRAMS).toNat }
    (invs.map (fun i => if i.pet_id == pid then updated else i), some updated)

/-- Detail string of the low-stock audit entry and push notification. -/
def lowStockDetail (petName : String) (count : Nat) : String :=
  petName ++ " low stock: " ++ toString count ++ " sachets left"

/-- `services/inventory.handle_inventory_after_feeding` (lines 21-41): look up
the pet's inventory (no-op when absent), remember the previous sachet count,
apply consumption, and when the count crosses from strictly above
`LOW_STOCK_THRESHOLD` to at-or-below it, append one `low_stock` audit entry
and send one push notification. -/
def handle_inventory_after_feeding (st : InvState) (pet : Pet) (amount : Int) :
    InvState :=
  match get_pet_inventory st.inventories pet.id with
  | none => st
  | some inv =>
    let previous := inv.sachet_count
    let r := apply_inventory_consumption st.inventories pet.id amount
    match r.2 with
    | none => { st with inventories := r.1 }
    | some updated =>
      if decide (LOW_STOCK_THRESHOLD < previous) &&
          decide (updated.sachet_count ≤ LOW_STOCK_THRESHOLD) then
        let detail := lowStockDetail pet.name updated.sachet_count
        { st with
          inventories := r.1,
          auditLog := st.auditLog ++ [⟨"low_stock", some detail⟩],
          pushes := st.pushes ++ ["Low food stock: " ++ detail] }
      else
        { st with inventories := r.1 }

/-- Row of the `users` table (app/models.py, class `User`); notification and
SMTP columns are omitted as irrelevant to the claims. -/
structure User where
  id : Nat
  username : String
  password_hash : String
  is_active : Bool := true
deriving Repr, DecidableEq

/-- Row of the `auth_sessions` table (app/models.py, class `AuthSession`). -/
structure AuthSession where
  token : String
  user_id : Nat
deriving Repr, DecidableEq

/-- The account/session part of the database. -/
structure AuthStore where
  users : List User
  sessions : List AuthSession
  auditLog : List AuditEntry
  nextUserId : Nat
deriving Repr, DecidableEq

/-- `crud.has_users`: whether any user row exists. -/
def has_users (s : AuthStore) : Bool := !s.users.isEmpty

/-- HTTP methods as far as the CSRF rule cares. -/
inductive Method where
  | GET | POST | PUT | PATCH | DELETE | HEAD | OPTIONS
deriving Repr, DecidableEq

/-- `config.UNSAFE_METHODS = {POST, PUT, PATCH, DELETE}`. -/
def isUnsafeMethod (m : Method) : Bool :=
  match m with
  | .POST | .PUT | .PATCH | .DELETE => true
  | _ => false

/-- The parts of a request that `require_auth` / `verify_csrf` read: method,
the `csrf` cookie, the `X-CSRF-Token` header and the `session` cookie.
Option `none` is an absent cookie/header. -/
structure HttpRequest where
  method : Method
  csrfCookie : Option String := none
  csrfHeader : Option String := none
  sessionCookie : Option String := none
deriving Repr, DecidableEq

/-- Authentication/CSRF rejections of `require_auth` (status, detail). -/
inductive AuthError where
  /-- 401 "Auth required." -/
  | authRequired
  /-- 403 "Account disabled." -/
  | accountDisabled
  /-- 403 "CSRF token missing." -/
  | csrfMissing
  /-- 403 "CSRF token invalid." -/
  | csrfInvalid
deriving Repr, DecidableEq

/-- HTTP status surfaced for each `AuthError`. -/
def AuthError.status : AuthError → Nat
  | .authRequired => 401
  | .accountDisabled => 403
  | .csrfMissing => 403
  | .csrfInvalid => 403

/-- `verify_csrf` (app/main.py lines 152-160): safe methods pass; otherwise
both the `csrf` cookie and the `X-CSRF-Token` header must be present (and
non-empty — Python truthiness) and equal (`secrets.compare_digest`). -/
def verify_csrf (req : HttpRequest) : Except AuthError Unit :=
  if !isUnsafeMethod req.method then .ok ()
  else if !(pyTruthyStr req.csrfCookie && pyTruthyStr req.csrfHeader) then
    .error .csrfMissing
  else if !(req.csrfCookie == req.csrfHeader) then .error .csrfInvalid
  else .ok ()

/-- `get_user_from_session` (app/main.py lines 114-120): falsy token means no
user; otherwise look up the session then its user. -/
def get_user_from_session (s : AuthStore) (tok : Option String) : Option User :=
  if !pyTruthyStr tok then none
  else
    match s.sessions.find? (fun ses => some ses.token == tok) with
    | none => none
    | some ses => s.users.find? (fun u => u.id == ses.user_id)

/-- `require_auth` (app/main.py lines 123-136): when no user exists it returns
`None` immediately — performing NO session and NO CSRF check; otherwise a
valid session for an active user is required and `verify_csrf` runs. -/
def require_auth (s : AuthStore) (req : HttpRequest) :
    Except AuthError (Option User) :=
  if !has_users s then .ok none
  else
    match get_user_from_session s req.sessionCookie with
    | none => .error .authRequired
    | some user =>
      if !user.is_active then .error .accountDisabled
      else
        match verify_csrf req with
        | .error e => .error e
        | .ok _ => .ok (some user)

/-- Rejections of `POST /signup` (status, detail). -/
inductive SignupError where
  /-- 403 "Signup disabled." -/
  | signupDisabled
  /-- 400 duplicate username (unreachable from an empty user table) -/
  | badRequest
deriving Repr, DecidableEq

/-- `crud.create_user`: reject a duplicate username, else insert a user row
with the next id.  The salted-PBKDF2 hash is an out-of-scope primitive (spec
section 1); it is abstracted by a parameter `hashed` standing for
`salt$pbkdf2(password, salt)`. -/
def create_user (s : AuthStore) (username hashed : String) :
    Except SignupError (AuthStore × User) :=
  match s.users.find? (fun u => u.username == username) with
  | some _ => .error .badRequest
  | none =>
    let u : User := { id := s.nextUserId, username := username,
                      password_hash := hashed }
    .ok ({ s with users := s.users ++ [u], nextUserId := s.nextUserId + 1 }, u)

/-- `crud.create_session`: insert a session row with a fresh token (the token
randomness is passed in as `tok`). -/
def create_session (s : AuthStore) (uid : Nat) (tok : String) :
    AuthStore × AuthSession :=
  let ses : AuthSession := { token := tok, user_id := uid }
  ({ s with sessions := s.sessions ++ [ses] }, ses)

/-- Outcome of the `signup` handler: resulting store, the `Set-Cookie` pairs
of the response, and the result. -/
structure SignupOutcome where
  store : AuthStore
  setCookies : List (String × String)
  result : Except SignupError String
deriving Repr

/-- The `POST /auth/signup` handler `signup` (app/main.py lines 222-241), also
served verbatim as `POST /signup` via `signup_alias` (lines 244-246): if any
user exists, 403 "Signup disabled." and nothing is created; otherwise create
the user, a session, an audit entry, and set the `session` and `csrf`
cookies.  `sessTok`/`csrfTok` stand for the generated random tokens. -/
def signup (s : AuthStore) (username hashed sessTok csrfTok : String) :
    SignupOutcome :=
  if has_users s then
    { store := s, setCookies := [], result := .error .signupDisabled }
  else
    match create_user s username hashed with
    | .error e => { store := s, setCookies := [], result := .error e }
    | .ok r =>
      let r2 := create_session r.1 r.2.id sessTok
      let s3 := { r2.1 with auditLog := r2.1.auditLog ++
        [⟨"signup", some ("username=" ++ r.2.username)⟩] }
      { store := s3,
        setCookies := [("session", sessTok), ("csrf", csrfTok)],
        result := .ok r2.2.token }

/-- One signup attempt's inputs: username, hashed password, session and CSRF
token randomness. -/
structure SignupRequest where
  username : String
  hashed : String
  sessTok : String
  csrfTok : String
deriving Repr, DecidableEq

/-- Run a sequence of signup attempts, counting how many succeed. -/
def countSignupSuccesses (s : AuthStore) : List SignupRequest → Nat
  | [] => 0
  | r :: rs =>
    let o := signup s r.username r.hashed r.sessTok r.csrfTok
    match o.result with
    | .ok _ => 1 + countSignupSuccesses o.store rs
    | .error _ => countSignupSuccesses o.store rs

/-! ## Helper lemmas -/

/-- The daily window actually used by the handlers, `[midnight, time.max)` of
`fed_at`'s date, contains exactly the events of that calendar day whose
microsecond-of-day is strictly below `timeMaxMicro`. -/
theorem inWindow_code (d : Int) (e : FeedingEvent) :
    inWindow (dayStart d) (dayEndCode d) e =
      (decide (e.fed_at.day = d) && decide (e.fed_at.micro < timeMaxMicro)) := by
  apply Bool.coe_iff_coe.mp
  simp only [inWindow, dtLe, dtLt, dayStart, dayEndCode, timeMaxMicro,
    Bool.and_eq_true, Bool.or_eq_true, decide_eq_true_eq]
  omega

/-! ## C4 — the daily window -/

/-- C4 counterexample: an event at 23:59:59.999999 of day 0 lies in the
half-open calendar-day interval `[midnight(day 0), midnight(day 1))` claimed by
the spec, yet `get_daily_count` over the window the handler computes
(`day_end = time.max` with a strict comparison) does not count it. -/
theorem C4_counterexample :
    dtLe (dayStart 0) ⟨0, timeMaxMicro⟩ = true ∧
    dtLt ⟨(0 : Int), timeMaxMicro⟩ (dayStart 1) = true ∧
    get_daily_count
      { pets := [{ id := 1, name := "Mia", daily_limit_count := some 1 }],
        events := [{ id := 1, fed_at := ⟨0, timeMaxMicro⟩, amount_grams := 85,
                     pet_id := some 1 }],
        auditLog := [], nextEventId := 2 }
      (dayStart 0) (dayEndCode 0) (some 1) = 0 := by
  refine ⟨by decide, by decide, by decide⟩

/-- C4 (amended): the daily window evaluated by the count and grams checks is
the half-open interval from midnight of `fed_at`'s date to 23:59:59.999999 of
the same date (`time.max`), endpoint excluded: an event is counted exactly
when its date matches and its microsecond-of-day is strictly below
`time.max`; in particular an event at exactly 23:59:59.999999 is not counted,
and nothing from the following day (e.g. its midnight) is counted. -/
theorem C4_day_window (s : Store) (d : Int) (pid : Option Nat) :
    get_daily_count s (dayStart d) (dayEndCode d) pid =
      (s.events.filter (fun e =>
        decide (e.fed_at.day = d) && decide (e.fed_at.micro < timeMaxMicro)
          && matchesPet pid e)).length := by
  unfold get_daily_count
  congr 1
  apply List.filter_congr
  intro e _
  rw [inWindow_code]

/-! ## C1 — daily count limit -/

/-- Pet used by the C1 counterexample: `daily_limit_count = 1`, no gram cap. -/
def c1Pet : Pet := { id := 1, name := "Mia", daily_limit_count := some 1 }

/-- Store used by the C1 counterexample: one existing feeding event for pet 1
at 23:59:59.999999 of day 0. -/
def c1Store : Store :=
  { pets := [c1Pet],
    events := [{ id := 1, fed_at := ⟨0, timeMaxMicro⟩, amount_grams := 85,
                 pet_id := some 1 }],
    auditLog := [], nextEventId := 2 }

/-- Feeding request used by the C1 counterexample: pet 1, noon of day 0. -/
def c1Payload : FeedingPayload :=
  { fed_at := ⟨0, 43200000000⟩, amount_grams := 85, pet_id := some 1 }

/-- C1 counterexample: pet 1 has `daily_limit_count = 1` and exactly one
feeding event lies in calendar day 0 (at 23:59:59.999999), so by the claim the
noon request must be rejected with the daily-feeding-limit error; the code
accepts it and creates a new row, because its window `[midnight, time.max)`
misses the existing event. -/
theorem C1_counterexample :
    (c1Store.events.filter (fun e =>
      decide (e.fed_at.day = 0) && e.pet_id == some 1)).length = 1 ∧
    (log_feeding c1Store c1Payload).2 =
      .ok { id := 2, fed_at := ⟨0, 43200000000⟩, amount_grams := 85,
            pet_id := some 1 } ∧
    (log_feeding c1Store c1Payload).1.events.length = 2 := by
  refine ⟨by decide, rfl, rfl⟩

/-- C1 (amended): for a pet with `daily_limit_count = N` (`N ≥ 1`) and no
gram cap, a `POST /feedings` request succeeds — a feeding-event row is created
and returned — when fewer than `N` events for that pet lie in the day window
the code evaluates, `[midnight, 23:59:59.999999)` of `fed_at`'s date, and is
rejected with the daily-feeding-limit error, creating no row, when exactly `N`
events lie in that window. -/
theorem C1_count_threshold (s : Store) (payload : FeedingPayload)
    (pid : Nat) (pet : Pet) (N : Int)
    (hpet : get_pet s pid = some pet)
    (hN : pet.daily_limit_count = some N) (hN1 : 1 ≤ N)
    (hG : pet.daily_grams_limit = none)
    (hpid : payload.pet_id = some pid) :
    (((get_daily_count s (dayStart payload.fed_at.day)
        (dayEndCode payload.fed_at.day) (some pid) : Nat) : Int) < N →
      ∃ e, (log_feeding s payload).2 = .ok e ∧
        (log_feeding s payload).1.events = s.events ++ [e]) ∧
    (((get_daily_count s (dayStart payload.fed_at.day)
        (dayEndCode payload.fed_at.day) (some pid) : Nat) : Int) = N →
      log_feeding s payload = (s, .error .dailyCountLimit)) := by
  have hlim : pyOrLimit pet.daily_limit_count = N := by
    simp only [hN, pyOrLimit]; rw [if_neg (by omega)]
  have hgr : pyTruthy pet.daily_grams_limit = false := by rw [hG]; rfl
  constructor
  · intro hlt
    simp only [log_feeding, hpid, hpet, hlim, hgr, Bool.false_and,
      Bool.false_eq_true, if_false, create_feeding_event]
    rw [if_neg (by omega)]
    exact ⟨_, rfl, rfl⟩
  · intro heq
    simp only [log_feeding, hpid, hpet, hlim, hgr]
    rw [if_pos (by omega)]

/-- Pet used by the C1 witness: `daily_limit_count = 2`, no gram cap. -/
def c1wPet : Pet := { id := 1, name := "Mia", daily_limit_count := some 2 }

/-- Store used by the C1 witness: pet 1 already has exactly 2 counted events
in day 0. -/
def c1wStore : Store :=
  { pets := [c1wPet],
    events := [{ id := 1, fed_at := ⟨0, 100⟩, amount_grams := 85,
                 pet_id := some 1 },
               { id := 2, fed_at := ⟨0, 200⟩, amount_grams := 85,
                 pet_id := some 1 }],
    auditLog := [], nextEventId := 3 }

/-- Request used by the C1 witness. -/
def c1wPayload : FeedingPayload :=
  { fed_at := ⟨0, 43200000000⟩, amount_grams := 85, pet_id := some 1 }

/-- C1 witness: in a store where pet 1 (`daily_limit_count = 2`) already has
exactly 2 counted events today, the theorem's rejection branch applies. -/
theorem C1_count_threshold_witness :
    log_feeding c1wStore c1wPayload = (c1wStore, .error .dailyCountLimit) :=
  (C1_count_threshold c1wStore c1wPayload 1 c1wPet 2 (by decide) rfl
    (by decide) rfl rfl).2 (by decide)

/-! ## C2 — daily grams limit -/

/-- Pet used by the C2 counterexample: gram cap 100, count cap 10. -/
def c2Pet : Pet :=
  { id := 1, name := "Mia", daily_limit_count := some 10,
    daily_grams_limit := some 100 }

/-- Store used by the C2 counterexample: pet 1 already consumed 90g in
calendar day 0, at 23:59:59.999999. -/
def c2Store : Store :=
  { pets := [c2Pet],
    events := [{ id := 1, fed_at := ⟨0, timeMaxMicro⟩, amount_grams := 90,
                 pet_id := some 1 }],
    auditLog := [], nextEventId := 2 }

/-- Request used by the C2 counterexample: 20g more at noon of day 0. -/
def c2Payload : FeedingPayload :=
  { fed_at := ⟨0, 43200000000⟩, amount_grams := 20, pet_id := some 1 }

/-- C2 counterexample: pet 1 has `daily_grams_limit = 100` and its calendar-day
gram total is 90, so by the claim the additional 20g request (90+20 = 110 > 100,
count cap far from reached) must be rejected with the daily-grams-limit error;
the code accepts it, because its window `[midnight, time.max)` misses the
existing 90g event. -/
theorem C2_counterexample :
    ((c2Store.events.filter (fun e =>
        decide (e.fed_at.day = 0) && e.pet_id == some 1)).map
      (fun e => e.amount_grams)).sum + c2Payload.amount_grams = 110 ∧
    c2Pet.daily_grams_limit = some 100 ∧
    ((get_daily_count c2Store (dayStart 0) (dayEndCode 0) (some 1) : Nat) : Int) <
      pyOrLimit c2Pet.daily_limit_count ∧
    (log_feeding c2Store c2Payload).2 =
      .ok { id := 2, fed_at := ⟨0, 43200000000⟩, amount_grams := 20,
            pet_id := some 1 } := by
  refine ⟨by decide, rfl, by decide, rfl⟩

/-- C2 (amended): for a pet with `daily_grams_limit = G` (`G ≥ 1`), provided
the daily count cap is not yet reached, a feeding whose `amount_grams` added to
the pet's gram total over the day window the code evaluates
(`[midnight, 23:59:59.999999)` of `fed_at`'s date) strictly exceeds `G` is
rejected with the daily-grams-limit error and creates no row, while a feeding
whose addition makes that window total exactly `G` is accepted. -/
theorem C2_grams_threshold (s : Store) (payload : FeedingPayload)
    (pid : Nat) (pet : Pet) (G : Int)
    (hpet : get_pet s pid = some pet)
    (hG : pet.daily_grams_limit = some G) (hG1 : 1 ≤ G)
    (hpid : payload.pet_id = some pid)
    (hcnt : ((get_daily_count s (dayStart payload.fed_at.day)
        (dayEndCode payload.fed_at.day) (some pid) : Nat) : Int) <
      pyOrLimit pet.daily_limit_count) :
    (G < get_daily_total_for_pet s (dayStart payload.fed_at.day)
        (dayEndCode payload.fed_at.day) pid + payload.amount_grams →
      log_feeding s payload = (s, .error .dailyGramsLimit)) ∧
    (get_daily_total_for_pet s (dayStart payload.fed_at.day)
        (dayEndCode payload.fed_at.day) pid + payload.amount_grams = G →
      ∃ e, (log_feeding s payload).2 = .ok e ∧
        (log_feeding s payload).1.events = s.events ++ [e]) := by
  have htr : pyTruthy pet.daily_grams_limit = true := by
    simp only [hG, pyTruthy, decide_eq_true_eq]; omega
  have hgd : pet.daily_grams_limit.getD 0 = G := by rw [hG]; rfl
  constructor
  · intro hov
    simp only [log_feeding, hpid, hpet, htr, hgd, Bool.true_and]
    rw [if_neg (by omega), if_pos (decide_eq_true hov)]
  · intro heq
    simp only [log_feeding, hpid, hpet, htr, hgd, Bool.true_and,
      create_feeding_event]
    rw [if_neg (by omega), if_neg (by simp only [decide_eq_true_eq]; omega)]
    exact ⟨_, rfl, rfl⟩

/-- Pet used by the C2 witness: gram cap 100, no explicit count cap. -/
def c2wPet : Pet := { id := 1, name := "Mia", daily_grams_limit := some 100 }

/-- Store used by the C2 witness: pet 1 has an 80g event counted today. -/
def c2wStore : Store :=
  { pets := [c2wPet],
    events := [{ id := 1, fed_at := ⟨0, 100⟩, amount_grams := 80,
                 pet_id := some 1 }],
    auditLog := [], nextEventId := 2 }

/-- Request used by the C2 witness: 20g more, reaching exactly 100 = G. -/
def c2wPayload : FeedingPayload :=
  { fed_at := ⟨0, 43200000000⟩, amount_grams := 20, pet_id := some 1 }

/-- C2 witness: a feeding reaching the gram cap exactly (80+20 = 100 = G) is
accepted, by the theorem's acceptance branch. -/
theorem C2_grams_threshold_witness :
    ∃ e, (log_feeding c2wStore c2wPayload).2 = .ok e ∧
      (log_feeding c2wStore c2wPayload).1.events = c2wStore.events ++ [e] :=
  (C2_grams_threshold c2wStore c2wPayload 1 c2wPet 100 (by decide) rfl
    (by decide) rfl (by decide)).2 (by decide)

/-! ## C3 — explicit zero daily limit -/

/-- Pet used by the C3 theorems: `daily_limit_count` explicitly 0. -/
def c3Pet : Pet := { id := 1, name := "Mia", daily_limit_count := some 0 }

/-- Store used by the C3 theorems: pet 1 with zero prior feeding events. -/
def c3Store : Store :=
  { pets := [c3Pet], events := [], auditLog := [], nextEventId := 1 }

/-- Request used by the C3 theorems. -/
def c3Payload : FeedingPayload :=
  { fed_at := ⟨0, 43200000000⟩, amount_grams := 85, pet_id := some 1 }

/-- C3 counterexample: pet 1 has `daily_limit_count = 0` and zero prior
events; by the claim every feeding request must be rejected with the
daily-count-limit error, but the code accepts it and creates a row, because
Python's `pet.daily_limit_count or DAILY_LIMIT` treats 0 as falsy and falls
back to the global default 3. -/
theorem C3_counterexample :
    c3Store.events = [] ∧
    c3Pet.daily_limit_count = some 0 ∧
    (log_feeding c3Store c3Payload).2 =
      .ok { id := 1, fed_at := ⟨0, 43200000000⟩, amount_grams := 85,
            pet_id := some 1 } := by
  refine ⟨rfl, rfl, rfl⟩

/-- Device request used by the C3 witness. -/
def c3DevPayload : DevicePayload :=
  { amount_grams := 85, fed_at := some ⟨0, 43200000000⟩, pet_id := some 1 }

/-- C3 (amended): an explicit `daily_limit_count = 0` is NOT honored
literally — `pet.daily_limit_count or DAILY_LIMIT` treats 0 exactly like
unset, so admission control falls back to the global default 3: both
`POST /feedings` and `POST /device/feed` reject with the daily-count-limit
error precisely when the day window already holds at least 3 counted events,
and in particular a pet with limit 0 and fewer than 3 counted events can be
fed. -/
theorem C3_zero_limit_fallback (s : Store) (payload : FeedingPayload)
    (dpayload : DevicePayload) (now : DT) (devTok : Option String)
    (pid : Nat) (pet : Pet)
    (hpet : get_pet s pid = some pet)
    (h0 : pet.daily_limit_count = some 0)
    (hpid : payload.pet_id = some pid)
    (hdpid : dpayload.pet_id = some pid) :
    ((log_feeding s payload).2 = .error .dailyCountLimit ↔
      DAILY_LIMIT ≤ ((get_daily_count s (dayStart payload.fed_at.day)
        (dayEndCode payload.fed_at.day) (some pid) : Nat) : Int)) ∧
    ((device_feed s now none devTok dpayload).2 = .error .dailyCountLimit ↔
      DAILY_LIMIT ≤ ((get_daily_count s (dayStart (dpayload.fed_at.getD now).day)
        (dayEndCode (dpayload.fed_at.getD now).day) (some pid) : Nat) : Int)) := by
  have hlim : pyOrLimit pet.daily_limit_count = DAILY_LIMIT := by
    rw [h0]; rfl
  constructor
  · simp only [log_feeding, hpid, hpet, hlim]
    by_cases hc : DAILY_LIMIT ≤ ((get_daily_count s (dayStart payload.fed_at.day)
        (dayEndCode payload.fed_at.day) (some pid) : Nat) : Int)
    · rw [if_pos hc]; simpa using hc
    · rw [if_neg hc]
      refine iff_of_false ?_ hc
      split <;> simp
  · simp only [device_feed, pyTruthyStr, Bool.false_and, Bool.false_eq_true,
      if_false, hdpid, hpet, hlim]
    by_cases hc : DAILY_LIMIT ≤
        ((get_daily_count s (dayStart (dpayload.fed_at.getD now).day)
          (dayEndCode (dpayload.fed_at.getD now).day) (some pid) : Nat) : Int)
    · rw [if_pos hc]; simpa using hc
    · rw [if_neg hc]
      refine iff_of_false ?_ hc
      split <;> simp

/-- C3 witness: the theorem instantiated at pet 1 with limit 0 and an empty
event table (both endpoints). -/
theorem C3_zero_limit_fallback_witness :
    ((log_feeding c3Store c3Payload).2 = .error .dailyCountLimit ↔
      DAILY_LIMIT ≤ ((get_daily_count c3Store (dayStart (0 : Int))
        (dayEndCode (0 : Int)) (some 1) : Nat) : Int)) ∧
    ((device_feed c3Store ⟨0, 0⟩ none none c3DevPayload).2 =
        .error .dailyCountLimit ↔
      DAILY_LIMIT ≤ ((get_daily_count c3Store (dayStart (0 : Int))
        (dayEndCode (0 : Int)) (some 1) : Nat) : Int)) :=
  C3_zero_limit_fallback c3Store c3Payload c3DevPayload ⟨0, 0⟩ none 1 c3Pet
    (by decide) rfl rfl rfl

/-! ## C5 — pet deletion and feeding events -/

/-- Store used by the C5 counterexample: pet 1 with one feeding event. -/
def c5Store : Store :=
  { pets := [{ id := 1, name := "Mia" }],
    events := [{ id := 1, fed_at := ⟨0, 0⟩, amount_grams := 85,
                 pet_id := some 1 }],
    auditLog := [], nextEventId := 2 }

/-- C5 counterexample: deleting pet 1 through `DELETE /pets/(pet_id)` succeeds
and removes the pet row, yet the pet's feeding event remains in the store —
the claim that both deletion endpoints remove all of the pet's feeding events
is false for this endpoint (`crud.delete_pet` only deletes the pet row; no
cascade is configured on `FeedingEvent.pet_id`). -/
theorem C5_counterexample :
    (delete_pet_endpoint c5Store 1).2 = .ok () ∧
    (delete_pet_endpoint c5Store 1).1.pets = [] ∧
    (delete_pet_endpoint c5Store 1).1.events =
      [{ id := 1, fed_at := ⟨0, 0⟩, amount_grams := 85, pet_id := some 1 }] := by
  refine ⟨rfl, rfl, rfl⟩

/-- C5 (amended): only `DELETE /admin/pets/(pet_id)` deletes the pet's feeding
events — after it completes no event with that `pet_id` remains (events of
other pets are untouched) and the pet row is gone; plain
`DELETE /pets/(pet_id)` removes the pet row only and leaves the feeding-event
table completely unchanged. -/
theorem C5_delete_cascade (s : Store) (pid : Nat) (pet : Pet)
    (hpet : get_pet s pid = some pet) :
    ((admin_delete_pet_endpoint s pid).2 = .ok () ∧
     (admin_delete_pet_endpoint s pid).1.events.filter
        (fun e => e.pet_id == some pid) = [] ∧
     (admin_delete_pet_endpoint s pid).1.events =
        s.events.filter (fun e => !(e.pet_id == some pid)) ∧
     (admin_delete_pet_endpoint s pid).1.pets =
        s.pets.filter (fun p => !(p.id == pid))) ∧
    ((delete_pet_endpoint s pid).2 = .ok () ∧
     (delete_pet_endpoint s pid).1.events = s.events ∧
     (delete_pet_endpoint s pid).1.pets =
        s.pets.filter (fun p => !(p.id == pid))) := by
  constructor
  · simp only [admin_delete_pet_endpoint, hpet]
    refine ⟨trivial, ?_, trivial, trivial⟩
    rw [List.filter_eq_nil_iff]
    intro e he
    have h2 := List.of_mem_filter he
    simpa using h2
  · simp only [delete_pet_endpoint, hpet]
    exact ⟨trivial, trivial, trivial⟩

/-- C5 witness: the theorem at the one-pet, one-event store. -/
theorem C5_delete_cascade_witness :
    ((admin_delete_pet_endpoint c5Store 1).2 = .ok () ∧
     (admin_delete_pet_endpoint c5Store 1).1.events.filter
        (fun e => e.pet_id == some 1) = [] ∧
     (admin_delete_pet_endpoint c5Store 1).1.events =
        c5Store.events.filter (fun e => !(e.pet_id == some 1)) ∧
     (admin_delete_pet_endpoint c5Store 1).1.pets =
        c5Store.pets.filter (fun p => !(p.id == 1))) ∧
    ((delete_pet_endpoint c5Store 1).2 = .ok () ∧
     (delete_pet_endpoint c5Store 1).1.events = c5Store.events ∧
     (delete_pet_endpoint c5Store 1).1.pets =
        c5Store.pets.filter (fun p => !(p.id == 1))) :=
  C5_delete_cascade c5Store 1 { id := 1, name := "Mia" } (by decide)

/-! ## C6, C7 — inventory consumption -/

/-- Replacing the matching row keeps it findable: after mapping the
row-replacement function over the table, looking the pet up yields the
replacement (provided a row for the pet existed). -/
theorem get_pet_inventory_map_replace (invs : List PetFoodInventory) (pid : Nat)
    (upd : PetFoodInventory) (hu : upd.pet_id = pid)
    (h : (get_pet_inventory invs pid).isSome) :
    get_pet_inventory
      (invs.map (fun i => if i.pet_id == pid then upd else i)) pid = some upd := by
  induction invs with
  | nil => simp [get_pet_inventory] at h
  | cons x xs ih =>
    by_cases hx : x.pet_id = pid
    · have hb : (x.pet_id == pid) = true := by simpa using hx
      unfold get_pet_inventory
      rw [List.map_cons, if_pos hb, List.find?_cons_of_pos _ (by simpa using hu)]
    · have hb : (x.pet_id == pid) = false := by simpa using hx
      unfold get_pet_inventory
      rw [List.map_cons, if_neg (by simp [hb]),
        List.find?_cons_of_neg _ (by simp [hb])]
      unfold get_pet_inventory at ih h
      rw [List.find?_cons_of_neg _ (by simp [hb])] at h
      exact ih h

/-- The updated row produced by `apply_inventory_consumption`. -/
def consumedRow (inv : PetFoodInventory) (amount : Int) : PetFoodInventory :=
  { inv with sachet_count :=
      (max 0 (remaining_grams inv - amount) / SACHET_SIZE_GRAMS).toNat }

/-- A found inventory row carries the pet id it was looked up by. -/
theorem get_pet_inventory_pet_id (invs : List PetFoodInventory) (pid : Nat)
    (inv : PetFoodInventory) (h : get_pet_inventory invs pid = some inv) :
    inv.pet_id = pid := by
  unfold get_pet_inventory at h
  simpa using List.find?_some h

/-- Consumption of a nonnegative amount never increases the sachet count. -/
theorem consumedRow_le (inv : PetFoodInventory) (amount : Int)
    (hamt : 0 ≤ amount) : (consumedRow inv amount).sachet_count ≤ inv.sachet_count := by
  unfold consumedRow remaining_grams SACHET_SIZE_GRAMS
  have h1 : max 0 ((inv.sachet_count : Int) * 85 - amount) ≤
      (inv.sachet_count : Int) * 85 :=
    max_le (by positivity) (by omega)
  have h2 : max 0 ((inv.sachet_count : Int) * 85 - amount) / 85 ≤
      (inv.sachet_count : Int) * 85 / 85 := Int.ediv_le_ediv (by norm_num) h1
  rw [Int.mul_ediv_cancel _ (by norm_num : (85:Int) ≠ 0)] at h2
  have h3 := Int.toNat_le_toNat h2
  simpa using h3

/-- Unfolded form of `handle_inventory_after_feeding` when a row exists. -/
theorem handle_inventory_found (st : InvState) (pet : Pet) (amount : Int)
    (inv : PetFoodInventory)
    (hinv : get_pet_inventory st.inventories pet.id = some inv) :
    handle_inventory_after_feeding st pet amount =
      (let upd := consumedRow inv amount
       let invs2 := st.inventories.map
         (fun i => if i.pet_id == pet.id then upd else i)
       if decide (LOW_STOCK_THRESHOLD < inv.sachet_count) &&
           decide (upd.sachet_count ≤ LOW_STOCK_THRESHOLD) then
         { st with
           inventories := invs2,
           auditLog := st.auditLog ++ [⟨"low_stock",
             some (lowStockDetail pet.name upd.sachet_count)⟩],
           pushes := st.pushes ++
             ["Low food stock: " ++ lowStockDetail pet.name upd.sachet_count] }
       else { st with inventories := invs2 }) := by
  unfold handle_inventory_after_feeding apply_inventory_consumption
  rw [hinv]
  rfl

/-- C6: for every pet with an inventory row and every consumption of a
nonnegative gram amount, the stored sachet count afterwards equals
`max(0, remaining_grams - amount) // sachet_size_grams` — in particular it is
never negative, and consuming 0 grams leaves it unchanged; for a pet with no
inventory row the call changes nothing. -/
theorem C6_consume_clamp (st : InvState) (pet : Pet) (amount : Int)
    (hamt : 0 ≤ amount) :
    (get_pet_inventory st.inventories pet.id = none →
      handle_inventory_after_feeding st pet amount = st) ∧
    (∀ inv, get_pet_inventory st.inventories pet.id = some inv →
      ∃ inv2,
        get_pet_inventory
          (handle_inventory_after_feeding st pet amount).inventories pet.id =
            some inv2 ∧
        (inv2.sachet_count : Int) =
          max 0 (remaining_grams inv - amount) / SACHET_SIZE_GRAMS ∧
        0 ≤ (inv2.sachet_count : Int) ∧
        (amount = 0 → inv2.sachet_count = inv.sachet_count)) := by
  constructor
  · intro hnone
    unfold handle_inventory_after_feeding
    rw [hnone]
  · intro inv hinv
    have hpid : inv.pet_id = pet.id := get_pet_inventory_pet_id _ _ _ hinv
    have hnn : 0 ≤ max 0 (remaining_grams inv - amount) / SACHET_SIZE_GRAMS :=
      Int.ediv_nonneg (le_max_left _ _) (by norm_num [SACHET_SIZE_GRAMS])
    refine ⟨consumedRow inv amount, ?_, ?_, ?_, ?_⟩
    · rw [handle_inventory_found st pet amount inv hinv]
      simp only [apply_ite InvState.inventories, ite_self]
      exact get_pet_inventory_map_replace st.inventories pet.id _
        (by simpa [consumedRow] using hpid) (by rw [hinv]; rfl)
    · unfold consumedRow
      exact Int.toNat_of_nonneg hnn
    · unfold consumedRow
      rw [Int.toNat_of_nonneg hnn]
      exact hnn
    · intro h0
      subst h0
      unfold consumedRow remaining_grams SACHET_SIZE_GRAMS
      rw [sub_zero, max_eq_right (by positivity),
        Int.mul_ediv_cancel _ (by norm_num : (85 : Int) ≠ 0),
        Int.toNat_natCast]

/-- Inventory row used by the C6 witness: 10 sachets for pet 1. -/
def c6Row : PetFoodInventory :=
  { pet_id := 1, food_name := "Whiskas Poultry", sachet_count := 10 }

/-- Inventory state used by the C6 witness: one row with 10 sachets. -/
def c6InvState : InvState :=
  { inventories := [c6Row], auditLog := [], pushes := [] }

/-- C6 witness: consuming 0 grams from a 10-sachet inventory; the theorem's
found-row branch applies at this concrete state. -/
theorem C6_consume_clamp_witness :
    ∃ inv2,
      get_pet_inventory
        (handle_inventory_after_feeding c6InvState { id := 1, name := "Mia" }
          0).inventories 1 = some inv2 ∧
      (inv2.sachet_count : Int) =
        max 0 (remaining_grams c6Row - 0) / SACHET_SIZE_GRAMS ∧
      0 ≤ (inv2.sachet_count : Int) ∧
      ((0 : Int) = 0 → inv2.sachet_count = c6Row.sachet_count) :=
  (C6_consume_clamp c6InvState { id := 1, name := "Mia" } 0 (by decide)).2
    c6Row (by decide)

/-- C7: for every consumption call of a nonnegative amount on a pet that has
an inventory row, a low-stock event (one audit entry plus one push) is emitted
exactly when the sachet count moves from strictly above `LOW_STOCK_THRESHOLD`
to at-or-below it; the count never increases, so a call starting at-or-below
the threshold emits nothing — one event per downward crossing, never per
check. -/
theorem C7_low_stock_crossing (st : InvState) (pet : Pet) (amount : Int)
    (inv : PetFoodInventory) (hamt : 0 ≤ amount)
    (hinv : get_pet_inventory st.inventories pet.id = some inv) :
    ∃ inv2,
      get_pet_inventory
        (handle_inventory_after_feeding st pet amount).inventories pet.id =
          some inv2 ∧
      inv2.sachet_count ≤ inv.sachet_count ∧
      (if LOW_STOCK_THRESHOLD < inv.sachet_count ∧
          inv2.sachet_count ≤ LOW_STOCK_THRESHOLD then
        (handle_inventory_after_feeding st pet amount).auditLog =
          st.auditLog ++ [⟨"low_stock",
            some (lowStockDetail pet.name inv2.sachet_count)⟩] ∧
        (handle_inventory_after_feeding st pet amount).pushes =
          st.pushes ++
            ["Low food stock: " ++ lowStockDetail pet.name inv2.sachet_count]
      else
        (handle_inventory_after_feeding st pet amount).auditLog = st.auditLog ∧
        (handle_inventory_after_feeding st pet amount).pushes = st.pushes) := by
  have hpid : inv.pet_id = pet.id := get_pet_inventory_pet_id _ _ _ hinv
  refine ⟨consumedRow inv amount, ?_, consumedRow_le inv amount hamt, ?_⟩
  · rw [handle_inventory_found st pet amount inv hinv]
    simp only [apply_ite InvState.inventories, ite_self]
    exact get_pet_inventory_map_replace st.inventories pet.id _
      (by simpa [consumedRow] using hpid) (by rw [hinv]; rfl)
  · rw [handle_inventory_found st pet amount inv hinv]
    by_cases hcross : LOW_STOCK_THRESHOLD < inv.sachet_count ∧
        (consumedRow inv amount).sachet_count ≤ LOW_STOCK_THRESHOLD
    · rw [if_pos hcross, if_pos (by simpa [Bool.and_eq_true, decide_eq_true_eq]
        using hcross)]
      exact ⟨rfl, rfl⟩
    · rw [if_neg hcross, if_neg (by simpa [Bool.and_eq_true, decide_eq_true_eq]
        using hcross)]
      exact ⟨rfl, rfl⟩

/-- Inventory row used by the C7 witness: 6 sachets, one above the
threshold of 5. -/
def c7Row : PetFoodInventory :=
  { pet_id := 1, food_name := "Whiskas Poultry", sachet_count := 6 }

/-- Inventory state used by the C7 witness. -/
def c7InvState : InvState :=
  { inventories := [c7Row], auditLog := [], pushes := [] }

/-- C7 witness: consuming one 85g sachet from 6 sachets crosses the threshold
(6 to 5); the theorem applies at this concrete state. -/
theorem C7_low_stock_crossing_witness :
    ∃ inv2,
      get_pet_inventory
        (handle_inventory_after_feeding c7InvState { id := 1, name := "Mia" }
          85).inventories 1 = some inv2 ∧
      inv2.sachet_count ≤ c7Row.sachet_count ∧
      (if LOW_STOCK_THRESHOLD < c7Row.sachet_count ∧
          inv2.sachet_count ≤ LOW_STOCK_THRESHOLD then
        (handle_inventory_after_feeding c7InvState { id := 1, name := "Mia" }
          85).auditLog = c7InvState.auditLog ++ [⟨"low_stock",
            some (lowStockDetail "Mia" inv2.sachet_count)⟩] ∧
        (handle_inventory_after_feeding c7InvState { id := 1, name := "Mia" }
          85).pushes = c7InvState.pushes ++
            ["Low food stock: " ++ lowStockDetail "Mia" inv2.sachet_count]
      else
        (handle_inventory_after_feeding c7InvState { id := 1, name := "Mia" }
          85).auditLog = c7InvState.auditLog ∧
        (handle_inventory_after_feeding c7InvState { id := 1, name := "Mia" }
          85).pushes = c7InvState.pushes) :=
  C7_low_stock_crossing c7InvState { id := 1, name := "Mia" } 85 c7Row
    (by decide) (by decide)

/-! ## C8 — daily stats series -/

/-- Per-day event count in the words of the claim: events whose `fed_at` has
calendar date `d`, optionally filtered to one pet. -/
def claimDayCount (s : Store) (pid : Option Nat) (d : Int) : Nat :=
  (s.events.filter (fun e => decide (e.fed_at.day = d) && matchesPet pid e)).length

/-- Per-day gram sum in the words of the claim. -/
def claimDayGrams (s : Store) (pid : Option Nat) (d : Int) : Int :=
  ((s.events.filter (fun e => decide (e.fed_at.day = d) && matchesPet pid e)).map
    (fun e => e.amount_grams)).sum

/-- For a pet filter that is absent or names a nonzero pet id (every real pet
id is at least 1), the stats filter agrees with the plain pet filter. -/
theorem statsPetFilter_eq_matchesPet (pid : Option Nat) (e : FeedingEvent)
    (hpid : pid = none ∨ ∃ p, pid = some p ∧ p ≠ 0) :
    statsPetFilter pid e = matchesPet pid e := by
  rcases hpid with h | ⟨p, hp, hp0⟩
  · subst h; rfl
  · subst hp
    simp only [statsPetFilter, matchesPet]
    rw [if_neg hp0]

/-- An event of calendar day `d` with `startD ≤ d ≤ endD` lies in the stats
query window `[startD 00:00, (endD+1) 00:00)`. -/
theorem inWindow_stats (startD endD d : Int) (e : FeedingEvent)
    (h1 : startD ≤ d) (h2 : d ≤ endD) (hd : e.fed_at.day = d) :
    inWindow (dayStart startD) (dayStart (endD + 1)) e = true := by
  simp only [inWindow, dtLe, dtLt, dayStart, Bool.and_eq_true, Bool.or_eq_true,
    decide_eq_true_eq]
  omega

/-- Over a day inside the requested range, the grouped-by-date window query of
`get_daily_totals` selects exactly the events of that calendar day. -/
theorem stats_filter_eq (s : Store) (startD endD d : Int) (pid : Option Nat)
    (h1 : startD ≤ d) (h2 : d ≤ endD)
    (hpid : pid = none ∨ ∃ p, pid = some p ∧ p ≠ 0) :
    s.events.filter (fun e =>
      inWindow (dayStart startD) (dayStart (endD + 1)) e && statsPetFilter pid e
        && decide (e.fed_at.day = d)) =
    s.events.filter (fun e => decide (e.fed_at.day = d) && matchesPet pid e) := by
  apply List.filter_congr
  intro e _
  by_cases hd : e.fed_at.day = d
  · rw [inWindow_stats startD endD d e h1 h2 hd,
      statsPetFilter_eq_matchesPet pid e hpid]
    simp [hd]
  · simp [hd]

/-- C8: `GET /stats/daily` with both dates supplied and `start ≤ end` returns
exactly `(end - start) + 1` entries, one per calendar day from `start` to
`end` in ascending order, where each entry carries the event count and gram
sum of its day (so a day with no events shows `count = 0, grams = 0`),
optionally filtered to one (nonzero-id) pet; with `start > end` it is rejected
with the invalid-date-range error. -/
theorem C8_daily_stats (s : Store) (startD endD : Int) (pid : Option Nat)
    (hpid : pid = none ∨ ∃ p, pid = some p ∧ p ≠ 0) :
    (endD < startD → get_daily_stats s startD endD pid = .error .invalidRange) ∧
    (startD ≤ endD →
      ∃ items, get_daily_stats s startD endD pid =
          .ok ((endD - startD).toNat + 1, items) ∧
        items.length = (endD - startD).toNat + 1 ∧
        ∀ i, ∀ h : i < items.length,
          (items.get ⟨i, h⟩).date = startD + i ∧
          (items.get ⟨i, h⟩).count = claimDayCount s pid (startD + i) ∧
          (items.get ⟨i, h⟩).grams = claimDayGrams s pid (startD + i)) := by
  constructor
  · intro h
    unfold get_daily_stats
    rw [if_pos (by simpa using h)]
  · intro h
    unfold get_daily_stats
    rw [if_neg (by simpa using not_lt.mpr h)]
    refine ⟨_, rfl, by simp, ?_⟩
    intro i hi
    have hi2 : i < (endD - startD).toNat + 1 := by simpa using hi
    have hd : endD - (((endD - startD).toNat + 1 - 1 - i : Nat) : Int) =
        startD + i := by omega
    simp only [List.get_eq_getElem, List.getElem_map, List.getElem_range]
    refine ⟨by simpa using hd, ?_, ?_⟩
    · show totalsCount s (dayStart startD) (dayStart (endD + 1)) pid _ = _
      rw [hd]
      unfold totalsCount claimDayCount
      rw [stats_filter_eq s startD endD (startD + i) pid (by omega) (by omega) hpid]
    · show totalsGrams s (dayStart startD) (dayStart (endD + 1)) pid _ = _
      rw [hd]
      unfold totalsGrams claimDayGrams
      rw [stats_filter_eq s startD endD (startD + i) pid (by omega) (by omega) hpid]

/-- Store used by the C8 witness: a single 85g event on day 1 of the
three-day range 0..2. -/
def c8Store : Store :=
  { pets := [{ id := 1, name := "Mia" }],
    events := [{ id := 1, fed_at := ⟨1, 100⟩, amount_grams := 85,
                 pet_id := some 1 }],
    auditLog := [], nextEventId := 2 }

/-- C8 witness: the theorem's in-range branch at the concrete store and range
0..2 with no pet filter. -/
theorem C8_daily_stats_witness :
    (0 : Int) ≤ 2 ∧
    ∃ items, get_daily_stats c8Store 0 2 none =
        .ok (((2 : Int) - 0).toNat + 1, items) ∧
      items.length = ((2 : Int) - 0).toNat + 1 ∧
      ∀ i, ∀ h : i < items.length,
        (items.get ⟨i, h⟩).date = 0 + i ∧
        (items.get ⟨i, h⟩).count = claimDayCount c8Store none (0 + i) ∧
        (items.get ⟨i, h⟩).grams = claimDayGrams c8Store none (0 + i) :=
  ⟨by decide, (C8_daily_stats c8Store 0 2 none (Or.inl rfl)).2 (by decide)⟩

/-! ## C9 — CSRF enforcement -/

/-- Auth store used by the C9 counterexample: no user accounts at all. -/
def c9EmptyAuth : AuthStore :=
  { users := [], sessions := [], auditLog := [], nextUserId := 1 }

/-- Request used by the C9 counterexample: unsafe method, no CSRF cookie, no
CSRF header, no session. -/
def c9ReqNoCsrf : HttpRequest := { method := .POST }

/-- C9 counterexample: with zero user accounts, an unsafe (POST) request with
neither CSRF cookie nor header is NOT rejected — `require_auth` returns
early before any session or CSRF check, so the claim's "regardless of the
system's state" is false. -/
theorem C9_counterexample :
    isUnsafeMethod c9ReqNoCsrf.method = true ∧
    c9ReqNoCsrf.csrfCookie = none ∧
    c9ReqNoCsrf.csrfHeader = none ∧
    c9EmptyAuth.users = [] ∧
    require_auth c9EmptyAuth c9ReqNoCsrf = .ok none := by
  refine ⟨rfl, rfl, rfl, rfl, rfl⟩

/-- C9 (amended): provided at least one user account exists and the request
carries a valid session for an active user, an unsafe-method request whose
CSRF cookie and `X-CSRF-Token` header are not both present (non-empty) and
equal is rejected by `require_auth` with a 403 error (token missing or token
invalid), before the handler runs; with zero user accounts the session and
CSRF checks are skipped entirely. -/
theorem C9_csrf_reject (s : AuthStore) (req : HttpRequest) (user : User)
    (husers : has_users s = true)
    (hsess : get_user_from_session s req.sessionCookie = some user)
    (hactive : user.is_active = true)
    (hmeth : isUnsafeMethod req.method = true)
    (hpair : ¬(pyTruthyStr req.csrfCookie = true ∧
      pyTruthyStr req.csrfHeader = true ∧ req.csrfCookie = req.csrfHeader)) :
    ∃ e, require_auth s req = .error e ∧ e.status = 403 := by
  have hcsrf : verify_csrf req = .error .csrfMissing ∨
      verify_csrf req = .error .csrfInvalid := by
    unfold verify_csrf
    rw [if_neg (by simp [hmeth])]
    cases hb : (pyTruthyStr req.csrfCookie && pyTruthyStr req.csrfHeader) with
    | false =>
      left
      simp
    | true =>
      right
      rw [if_neg (by simp)]
      have hboth : pyTruthyStr req.csrfCookie = true ∧
          pyTruthyStr req.csrfHeader = true := by
        simpa [Bool.and_eq_true] using hb
      have hne : ¬(req.csrfCookie = req.csrfHeader) :=
        fun hEq => hpair ⟨hboth.1, hboth.2, hEq⟩
      rw [if_pos (by simpa using hne)]
  have hstep : require_auth s req =
      match verify_csrf req with
      | .error e => .error e
      | .ok _ => .ok (some user) := by
    unfold require_auth
    rw [if_neg (by simp [husers])]
    simp only [hsess]
    rw [if_neg (by simp [hactive])]
  rcases hcsrf with h | h
  · exact ⟨.csrfMissing, by rw [hstep, h], rfl⟩
  · exact ⟨.csrfInvalid, by rw [hstep, h], rfl⟩

/-- Auth store used by the C9 witness: one active user with session "t". -/
def c9Auth : AuthStore :=
  { users := [{ id := 1, username := "admin", password_hash := "h" }],
    sessions := [{ token := "t", user_id := 1 }],
    auditLog := [], nextUserId := 2 }

/-- Request used by the C9 witness: valid session cookie, a CSRF cookie but
no CSRF header. -/
def c9Req : HttpRequest :=
  { method := .POST, csrfCookie := some "a", csrfHeader := none,
    sessionCookie := some "t" }

/-- C9 witness: the theorem at the one-user store and a POST missing its CSRF
header. -/
theorem C9_csrf_reject_witness :
    ∃ e, require_auth c9Auth c9Req = .error e ∧ e.status = 403 :=
  C9_csrf_reject c9Auth c9Req
    { id := 1, username := "admin", password_hash := "h" }
    (by decide) (by decide) (by decide) (by decide) (by decide)

/-! ## C10 — single-use public signup -/

/-- With any user present, `signup` rejects with 403 "Signup disabled." and
changes nothing: no user, no session, no cookie. -/
theorem signup_disabled_of_nonempty (s : AuthStore)
    (username hashed sessTok csrfTok : String) (h : s.users ≠ []) :
    signup s username hashed sessTok csrfTok =
      { store := s, setCookies := [], result := .error .signupDisabled } := by
  unfold signup
  rw [if_pos (by simp [has_users, List.isEmpty_iff, h])]

/-- A sequence of signup attempts against a store that already has a user
never succeeds. -/
theorem countSignupSuccesses_nonempty (s : AuthStore) (h : s.users ≠ [])
    (reqs : List SignupRequest) : countSignupSuccesses s reqs = 0 := by
  induction reqs with
  | nil => rfl
  | cons r rs ih =>
    unfold countSignupSuccesses
    rw [signup_disabled_of_nonempty s r.username r.hashed r.sessTok r.csrfTok h]
    exact ih

/-- C10: `POST /signup` (and `POST /auth/signup`) creates a user only while
zero accounts exist — with any user present the request is rejected with
"Signup disabled." and no user, session, or cookie is created; from an empty
store it creates exactly one user and sets the session and CSRF cookies; and
in any sequence of signup attempts at most one ever succeeds. -/
theorem C10_single_signup (s : AuthStore)
    (username hashed sessTok csrfTok : String) :
    (s.users ≠ [] →
      signup s username hashed sessTok csrfTok =
        { store := s, setCookies := [], result := .error .signupDisabled }) ∧
    (s.users = [] →
      ∃ u : User,
        (signup s username hashed sessTok csrfTok).result = .ok sessTok ∧
        (signup s username hashed sessTok csrfTok).store.users = [u] ∧
        u.username = username ∧
        (signup s username hashed sessTok csrfTok).setCookies =
          [("session", sessTok), ("csrf", csrfTok)]) ∧
    (∀ reqs : List SignupRequest, countSignupSuccesses s reqs ≤ 1) := by
  refine ⟨signup_disabled_of_nonempty s username hashed sessTok csrfTok, ?_, ?_⟩
  · intro h
    refine ⟨{ id := s.nextUserId, username := username,
              password_hash := hashed }, ?_, ?_, rfl, ?_⟩ <;>
      simp [signup, create_user, create_session, has_users, h]
  · intro reqs
    by_cases h : s.users = []
    · cases reqs with
      | nil => exact Nat.zero_le 1
      | cons r rs =>
        have hok : (signup s r.username r.hashed r.sessTok r.csrfTok).result =
            .ok r.sessTok := by
          simp [signup, create_user, create_session, has_users, h]
        have hne : (signup s r.username r.hashed r.sessTok
            r.csrfTok).store.users ≠ [] := by
          simp [signup, create_user, create_session, has_users, h]
        simp only [countSignupSuccesses, hok]
        rw [countSignupSuccesses_nonempty _ hne rs]
    · rw [countSignupSuccesses_nonempty s h reqs]
      exact Nat.zero_le 1

/-- Auth store used by the C10 witness: empty, before any signup. -/
def c10Store : AuthStore :=
  { users := [], sessions := [], auditLog := [], nextUserId := 1 }

/-- C10 witness: the theorem's empty-store branch plus the at-most-one bound
for a concrete two-attempt sequence. -/
theorem C10_single_signup_witness :
    (∃ u : User,
      (signup c10Store "admin" "pw-hash" "s1" "c1").result = .ok "s1" ∧
      (signup c10Store "admin" "pw-hash" "s1" "c1").store.users = [u] ∧
      u.username = "admin" ∧
      (signup c10Store "admin" "pw-hash" "s1" "c1").setCookies =
        [("session", "s1"), ("csrf", "c1")]) ∧
    countSignupSuccesses c10Store
      [⟨"admin", "pw-hash", "s1", "c1"⟩, ⟨"bob", "pw-hash", "s2", "c2"⟩] ≤ 1 :=
  ⟨(C10_single_signup c10Store "admin" "pw-hash" "s1" "c1").2.1 rfl,
   (C10_single_signup c10Store "admin" "pw-hash" "s1" "c1").2.2 _⟩

end CatFeeder
